import Mathlib

/-!
Verification of `hfile_gcs.c` (htslib Google Cloud Storage backend).

The development shallowly embeds the two components of the file:

* `get_gcs_access_token` — the token provider (lines 48–92 of the source).
  Environment lookups become an explicit `GcsEnv` record, the static
  `gcs_access_token` buffer and `last_access` variable become a `TokenCache`
  record threaded through the call, `time(NULL)` becomes a `now : Nat`
  parameter, and the `popen`/`kgetline` interaction becomes a
  `subproc : Option (Option (List Char))` parameter (`none` = `popen` failed,
  `some none` = a stream that yields no line, `some (some l)` = a stream whose
  first line is `l`).  The C `assert` on the token length is modelled by the
  outer `Option`: a result of `none` is the aborted (assertion-failed) run.

* `gcs_rewrite` — the URL translator (lines 94–175).  Strings are embedded as
  `List Char`; the `kstring` URL construction becomes `gcs_target_url`, the
  header assembly and the choice between the bare `hopen(url, mode)` call and
  the options-based `hopen(..., "httphdr", ...)` calls becomes `gcs_open_call`,
  and `gcs_rewrite` itself delegates the constructed call to an abstract
  `opener`, returning its result unchanged.
-/

/-- Abbreviation turning a string literal into the `List Char` the embedding
works over. -/
def chars (s : String) : List Char := s.toList

/-- `#define MAX_GCS_TOKEN_SIZE 2048` (source line 68). -/
def MAX_GCS_TOKEN_SIZE : Nat := 2048

/-- `#define MAX_SERVICE_TOKEN_DURATION 3540` (source line 69). -/
def MAX_SERVICE_TOKEN_DURATION : Nat := 3540

/-- The environment variables consulted by the token provider.  A field is
`none` when `getenv` returns `NULL`, and `some v` (possibly with `v = []`)
when the variable is set to value `v`. -/
structure GcsEnv where
  gcs_oauth_token : Option (List Char)
  hts_auth_location : Option (List Char)
  google_application_credentials : Option (List Char)
deriving DecidableEq

/-- The process-wide mutable state of the token provider: the contents of the
static `gcs_access_token[MAX_GCS_TOKEN_SIZE]` buffer (as the list of
characters before the first NUL) and the static `time_t last_access`
(0 meaning never set, as in the C initializer). -/
structure TokenCache where
  gcs_access_token : List Char
  last_access : Nat
deriving DecidableEq

/-- Result of one call to the token provider: the returned token (`none`
models returning `NULL`), the cache state after the call, and whether the
credential-minting subprocess was launched (`popen` called) during the call. -/
structure TokenResult where
  token : Option (List Char)
  cache : TokenCache
  invoked : Bool
deriving DecidableEq

/-- `get_gcs_access_token` (source lines 48–92).

* lines 52–55: `GCS_OAUTH_TOKEN` is returned verbatim when set;
* lines 57–60: if `HTS_AUTH_LOCATION` is set, return `NULL`;
* lines 72–89: if `GOOGLE_APPLICATION_CREDENTIALS` is set and
  `!last_access || (last_access && difftime(now, last_access) > 3540)`,
  run the subprocess: on `popen` failure nothing changes; otherwise the
  buffer is `memset` to zero, a line is read if possible (the `assert` on
  its length aborting when it exceeds `MAX_GCS_TOKEN_SIZE`, modelled by the
  `none` result), and `last_access = time(NULL)` runs in every non-aborted
  branch after a successful `popen`;
* line 91: return the buffer when non-empty, else `NULL`. -/
def get_gcs_access_token (env : GcsEnv) (cache : TokenCache) (now : Nat)
    (subproc : Option (Option (List Char))) : Option TokenResult :=
  match env.gcs_oauth_token with
  | some token => some ⟨some token, cache, false⟩
  | none =>
    if env.hts_auth_location.isSome then
      some ⟨none, cache, false⟩
    else
      let refreshed : Option (TokenCache × Bool) :=
        if env.google_application_credentials.isSome then
          if cache.last_access = 0 ∨
              (cache.last_access ≠ 0 ∧
               ((now : Int) - (cache.last_access : Int)
                  > (MAX_SERVICE_TOKEN_DURATION : Int))) then
            match subproc with
            | none => some (cache, true)
            | some none => some (⟨[], now⟩, true)
            | some (some line) =>
                if line.length > MAX_GCS_TOKEN_SIZE then none
                else some (⟨line.take MAX_GCS_TOKEN_SIZE, now⟩, true)
          else some (cache, false)
        else some (cache, false)
      refreshed.map fun rc =>
        ⟨if rc.1.gcs_access_token.length > 0 then some rc.1.gcs_access_token
          else none,
         rc.1, rc.2⟩

/-- Membership in the `strcspn` stop set `"/?#"` (source line 117). -/
def gcs_stop_char (c : Char) : Bool := c == '/' || c == '?' || c == '#'

/-- The host infix chosen from the mode string (source lines 120–122):
`strchr(mode, 'r')` first, then `strchr(mode, 'w')`, else the neutral form. -/
def gcs_host_suffix (mode : List Char) : List Char :=
  if mode.contains 'r' then chars ".storage-download"
  else if mode.contains 'w' then chars ".storage-upload"
  else chars ".storage"

/-- The rewritten URL built by `gcs_rewrite` (source lines 105–125).

* line 107: if `gsurl[2] == '+'`, the scheme part copied into the URL is
  `gsurl[3 .. strchr(gsurl, ':') + 1)`; when the string has no `':'`, or its
  first `':'` lies before index 2, the C code has undefined behaviour
  (NULL-pointer arithmetic / negative length), modelled by `none`;
* lines 111–113: otherwise the URL starts `"https:"` and the rest begins at
  index 3;
* line 115: every leading `'/'` of the rest is copied;
* lines 117–125: the bucket runs to the first of `'/'`, `'?'`, `'#'`; then the
  host suffix, `".googleapis.com"`, and the untouched remainder follow. -/
def gcs_target_url (gsurl mode : List Char) : Option (List Char) :=
  let schemeSplit : Option (List Char × List Char) :=
    if gsurl.get? 2 = some '+' then
      match gsurl.dropWhile (· != ':') with
      | ':' :: after =>
          let colonIdx := (gsurl.takeWhile (· != ':')).length
          if 3 ≤ colonIdx + 1 then
            some ((gsurl.drop 3).take (colonIdx + 1 - 3), after)
          else none
      | _ => none
    else
      some (chars "https:", gsurl.drop 3)
  schemeSplit.map fun sr =>
    let slashes := sr.2.takeWhile (· == '/')
    let afterSlashes := sr.2.dropWhile (· == '/')
    let bucket := afterSlashes.takeWhile (fun c => !gcs_stop_char c)
    let path := afterSlashes.dropWhile (fun c => !gcs_stop_char c)
    sr.1 ++ slashes ++ bucket ++ gcs_host_suffix mode
      ++ chars ".googleapis.com" ++ path

/-- The call `gcs_rewrite` makes to the generic opener: either the bare
two-argument `hopen(url, mode)` (source line 168), or the options form
carrying the (possibly absent) `va_list` and the list of header strings
passed through the `"httphdr"`/`"httphdr:l"` option (source lines 151–165). -/
inductive OpenCall where
  | bare (url mode : List Char)
  | withOpts (url mode : List Char) (hasVaList : Bool) (headers : List (List Char))
deriving DecidableEq

/-- The `auth_hdr` kstring (source lines 132–135): empty unless the token
provider returned a token. -/
def auth_hdr (tok : Option (List Char)) : List Char :=
  match tok with
  | some t => chars "Authorization: Bearer " ++ t
  | none => []

/-- The `requester_pays_hdr` kstring (source lines 139–142): empty unless
`GCS_REQUESTER_PAYS_PROJECT` is set. -/
def requester_pays_hdr (proj : Option (List Char)) : List Char :=
  match proj with
  | some p => chars "X-Goog-User-Project: " ++ p
  | none => []

/-- The opener invocation chosen by `gcs_rewrite` (source lines 144–168),
parametrised by the token returned by the provider and by the
`GCS_REQUESTER_PAYS_PROJECT` value.

* line 144: the options path is taken when a `va_list` was passed, the mode
  already carries its colon, or either header is non-empty;
* lines 145–149: on the options path a missing mode colon is appended to a
  per-call copy;
* lines 151–160: with both headers non-empty, `"httphdr:l"` receives the list
  `[auth_hdr, requester_pays_hdr]`;
* lines 162–165: otherwise `"httphdr"` receives `auth_hdr` when it is
  non-empty and `NULL` (no header at all) when it is empty — the
  `requester_pays_hdr` is not consulted in this branch;
* line 168: with no args, no colon and no headers, the bare call is made. -/
def gcs_open_call (tok proj : Option (List Char)) (gsurl mode : List Char)
    (mode_has_colon has_args : Bool) : Option OpenCall :=
  (gcs_target_url gsurl mode).map fun url =>
    let ah := auth_hdr tok
    let rh := requester_pays_hdr proj
    if has_args ∨ mode_has_colon ∨ ah.length > 0 ∨ rh.length > 0 then
      let mode2 := if mode_has_colon then mode else mode ++ [':']
      if ah.length > 0 ∧ rh.length > 0 then
        OpenCall.withOpts url mode2 has_args [ah, rh]
      else
        OpenCall.withOpts url mode2 has_args
          (if ah.length > 0 then [ah] else [])
    else
      OpenCall.bare url mode

/-- `gcs_rewrite` (source lines 94–175) with the generic opener abstracted:
the constructed call is handed to `opener` and its result is returned
unchanged (line 174 returns `fp` exactly as `hopen` produced it). -/
def gcs_rewrite {α : Type} (opener : OpenCall → α) (tok proj : Option (List Char))
    (gsurl mode : List Char) (mode_has_colon has_args : Bool) : Option α :=
  (gcs_open_call tok proj gsurl mode mode_has_colon has_args).map opener

/-! ## Helper lemmas -/

/-- A list whose head fails the predicate (or which is empty) contributes
nothing to `takeWhile`. -/
theorem takeWhile_eq_nil_of_head {p : Char → Bool} {l : List Char}
    (h : l = [] ∨ ∃ c t, l = c :: t ∧ p c = false) : l.takeWhile p = [] := by
  rcases h with rfl | ⟨c, t, rfl, hc⟩
  · rfl
  · simp [List.takeWhile_cons, hc]

/-- A list whose head fails the predicate (or which is empty) is untouched by
`dropWhile`. -/
theorem dropWhile_eq_self_of_head {p : Char → Bool} {l : List Char}
    (h : l = [] ∨ ∃ c t, l = c :: t ∧ p c = false) : l.dropWhile p = l := by
  rcases h with rfl | ⟨c, t, rfl, hc⟩
  · rfl
  · simp [List.dropWhile_cons, hc]

/-- How `gcs_target_url` splits the part of the URL after `scheme://` when the
bucket is a non-empty run of non-stop characters and the path (if any) starts
with a stop character. -/
theorem gcs_parse_rest (bucket path : List Char) (hb : bucket ≠ [])
    (hbs : ∀ c ∈ bucket, c ≠ '/' ∧ c ≠ '?' ∧ c ≠ '#')
    (hp : path = [] ∨ ∃ c t, path = c :: t ∧ (c = '/' ∨ c = '?' ∨ c = '#')) :
    (bucket ++ path).takeWhile (· == '/') = []
  ∧ (bucket ++ path).dropWhile (· == '/') = bucket ++ path
  ∧ (bucket ++ path).takeWhile (fun c => !gcs_stop_char c) = bucket
  ∧ (bucket ++ path).dropWhile (fun c => !gcs_stop_char c) = path := by
  obtain ⟨b0, bt, rfl⟩ : ∃ b0 bt, bucket = b0 :: bt := by
    cases bucket with
    | nil => exact absurd rfl hb
    | cons b0 bt => exact ⟨b0, bt, rfl⟩
  have hball : ∀ c ∈ b0 :: bt, (!gcs_stop_char c) = true := by
    intro c hc
    obtain ⟨h1, h2, h3⟩ := hbs c hc
    simp [gcs_stop_char, h1, h2, h3]
  have hphead : path = [] ∨ ∃ c t, path = c :: t ∧ (!gcs_stop_char c) = false := by
    rcases hp with rfl | ⟨c, t, rfl, hc⟩
    · exact Or.inl rfl
    · refine Or.inr ⟨c, t, rfl, ?_⟩
      rcases hc with rfl | rfl | rfl <;> simp [gcs_stop_char]
  have hb0 : (b0 == '/') = false := by
    have := (hbs b0 (by simp)).1
    simpa using this
  refine ⟨?_, ?_, ?_, ?_⟩
  · show (b0 :: (bt ++ path)).takeWhile (· == '/') = []
    exact List.takeWhile_cons_of_neg (by simp [hb0])
  · show (b0 :: (bt ++ path)).dropWhile (· == '/') = b0 :: (bt ++ path)
    exact List.dropWhile_cons_of_neg (by simp [hb0])
  · rw [List.takeWhile_append_of_pos hball, takeWhile_eq_nil_of_head hphead,
        List.append_nil]
  · rw [List.dropWhile_append_of_pos hball, dropWhile_eq_self_of_head hphead]

/-! ## Claim theorems -/

/-- Claim C3: for every URL `gs://bucket/path` (and `gs+http://`,
`gs+https://`, whose explicit subscheme is used verbatim as the transport)
and every mode string, the constructed target URL is
`<transport>://<bucket>.<host>.googleapis.com<path>`, where the bucket is the
segment up to the first of `'/'`, `'?'`, `'#'`, the path (query and fragment
included) is appended unchanged, and the host is `storage-download` if the
mode contains `'r'`, else `storage-upload` if it contains `'w'`, else
`storage`. -/
theorem gcs_url_translation (bucket path mode : List Char)
    (hb : bucket ≠ [])
    (hbs : ∀ c ∈ bucket, c ≠ '/' ∧ c ≠ '?' ∧ c ≠ '#')
    (hp : path = [] ∨ ∃ c t, path = c :: t ∧ (c = '/' ∨ c = '?' ∨ c = '#')) :
    gcs_target_url (chars "gs://" ++ bucket ++ path) mode
      = some (chars "https://" ++ bucket
          ++ (if mode.contains 'r' then chars ".storage-download"
              else if mode.contains 'w' then chars ".storage-upload"
              else chars ".storage")
          ++ chars ".googleapis.com" ++ path)
  ∧ gcs_target_url (chars "gs+http://" ++ bucket ++ path) mode
      = some (chars "http://" ++ bucket
          ++ (if mode.contains 'r' then chars ".storage-download"
              else if mode.contains 'w' then chars ".storage-upload"
              else chars ".storage")
          ++ chars ".googleapis.com" ++ path)
  ∧ gcs_target_url (chars "gs+https://" ++ bucket ++ path) mode
      = some (chars "https://" ++ bucket
          ++ (if mode.contains 'r' then chars ".storage-download"
              else if mode.contains 'w' then chars ".storage-upload"
              else chars ".storage")
          ++ chars ".googleapis.com" ++ path) := by
  obtain ⟨k1, k2, k3, k4⟩ := gcs_parse_rest bucket path hb hbs hp
  refine ⟨?_, ?_, ?_⟩
  · show gcs_target_url ('g' :: 's' :: ':' :: '/' :: '/' :: (bucket ++ path)) mode = _
    simp [gcs_target_url, gcs_host_suffix, k1, k2, k3, k4, chars]
  · show gcs_target_url
        ('g' :: 's' :: '+' :: 'h' :: 't' :: 't' :: 'p' :: ':' :: '/' :: '/'
          :: (bucket ++ path)) mode = _
    simp [gcs_target_url, gcs_host_suffix, k1, k2, k3, k4, chars]
  · show gcs_target_url
        ('g' :: 's' :: '+' :: 'h' :: 't' :: 't' :: 'p' :: 's' :: ':' :: '/' :: '/'
          :: (bucket ++ path)) mode = _
    simp [gcs_target_url, gcs_host_suffix, k1, k2, k3, k4, chars]

/-- Witness for C3 at the spec's own example: `gs://my-bucket/dir/obj.bam`
with mode `"r"`. -/
theorem gcs_url_translation_witness :
    ((chars "my-bucket" ≠ [])
      ∧ (∀ c ∈ chars "my-bucket", c ≠ '/' ∧ c ≠ '?' ∧ c ≠ '#'))
  ∧ gcs_target_url (chars "gs://" ++ chars "my-bucket" ++ chars "/dir/obj.bam")
        (chars "r")
      = some (chars "https://" ++ chars "my-bucket"
          ++ (if (chars "r").contains 'r' then chars ".storage-download"
              else if (chars "r").contains 'w' then chars ".storage-upload"
              else chars ".storage")
          ++ chars ".googleapis.com" ++ chars "/dir/obj.bam") :=
  ⟨⟨by decide, by decide⟩,
    (gcs_url_translation (chars "my-bucket") (chars "/dir/obj.bam") (chars "r")
      (by decide) (by decide)
      (Or.inr ⟨'/', chars "dir/obj.bam", by decide, Or.inl rfl⟩)).1⟩

/-- Claim C5: `GCS_OAUTH_TOKEN`, when set, is returned verbatim — bypassing
the cache entirely, whatever its contents and whatever else is configured —
and otherwise a set `HTS_AUTH_LOCATION` makes the provider return no token,
even when a credential path (and a cached token) would be available. -/
theorem gcs_token_precedence (env : GcsEnv) (cache : TokenCache) (now : Nat)
    (subproc : Option (Option (List Char))) :
    (∀ t, env.gcs_oauth_token = some t →
        get_gcs_access_token env cache now subproc = some ⟨some t, cache, false⟩)
  ∧ (env.gcs_oauth_token = none → env.hts_auth_location.isSome →
        get_gcs_access_token env cache now subproc = some ⟨none, cache, false⟩) := by
  constructor
  · intro t ht
    simp [get_gcs_access_token, ht]
  · intro h1 h2
    simp [get_gcs_access_token, h1, h2]

/-- Witness for C5: the override token wins over a configured credential path
and a non-empty cache; the sentinel yields no token in the same situation. -/
theorem gcs_token_precedence_witness :
    ((⟨some (chars "TOK"), none, some (chars "/cred.json")⟩ : GcsEnv).gcs_oauth_token
        = some (chars "TOK")
      ∧ get_gcs_access_token ⟨some (chars "TOK"), none, some (chars "/cred.json")⟩
          ⟨chars "cached", 100⟩ 10000 none
        = some ⟨some (chars "TOK"), ⟨chars "cached", 100⟩, false⟩)
  ∧ get_gcs_access_token ⟨none, some (chars "x"), some (chars "/cred.json")⟩
        ⟨chars "cached", 100⟩ 10000 none
      = some ⟨none, ⟨chars "cached", 100⟩, false⟩ :=
  ⟨⟨rfl, (gcs_token_precedence _ _ _ _).1 _ rfl⟩,
   (gcs_token_precedence _ _ _ _).2 rfl rfl⟩

/-- Claim C6: a token line longer than `MAX_GCS_TOKEN_SIZE` (2048) bytes makes
the `assert` on line 81 fail — the run aborts (`none`), so no truncated token
is ever stored in the cache. -/
theorem gcs_token_oversize_aborts (cred line : List Char) (cache : TokenCache)
    (now : Nat)
    (hr : cache.last_access = 0 ∨
      (cache.last_access ≠ 0 ∧
        ((now : Int) - (cache.last_access : Int) > 3540)))
    (hlen : line.length > 2048) :
    get_gcs_access_token ⟨none, none, some cred⟩ cache now (some (some line))
      = none := by
  simp only [get_gcs_access_token, MAX_SERVICE_TOKEN_DURATION,
    MAX_GCS_TOKEN_SIZE, Option.isSome_none, Bool.false_eq_true, if_false,
    Option.isSome_some, if_true]
  rw [if_pos (by exact_mod_cast hr), if_pos (by exact_mod_cast hlen)]
  rfl

/-- Witness for C6: a 2049-character line aborts the refresh. -/
theorem gcs_token_oversize_aborts_witness :
    ((⟨[], 0⟩ : TokenCache).last_access = 0 ∨
      ((⟨[], 0⟩ : TokenCache).last_access ≠ 0 ∧
        (((1 : Nat) : Int) - ((⟨[], 0⟩ : TokenCache).last_access : Int) > 3540)))
  ∧ (List.replicate 2049 'a').length > 2048
  ∧ get_gcs_access_token ⟨none, none, some (chars "/c")⟩ ⟨[], 0⟩ 1
        (some (some (List.replicate 2049 'a'))) = none :=
  ⟨Or.inl rfl, by rw [List.length_replicate]; decide,
   gcs_token_oversize_aborts (chars "/c") (List.replicate 2049 'a') ⟨[], 0⟩ 1
     (Or.inl rfl) (by rw [List.length_replicate]; decide)⟩

/-- Claim C2 counterexample: during a due refresh in which the subprocess
starts but yields no output line, the previously cached value `"oldtok"` is
NOT left untouched — the buffer was already zeroed by the `memset` on line 77
— and `last_access` is updated to the current time even though no token line
was read. -/
theorem gcs_token_read_failure_cex :
    get_gcs_access_token ⟨none, none, some (chars "/c")⟩ ⟨chars "oldtok", 100⟩
        5000 (some none)
      = some ⟨none, ⟨[], 5000⟩, true⟩
  ∧ (⟨[], 5000⟩ : TokenCache) ≠ ⟨chars "oldtok", 100⟩ := by
  constructor
  · decide
  · decide

/-- Claim C2 (amended): if the subprocess cannot be started (`popen` fails)
the cached token and the fetch timestamp are both left untouched; if it starts
but produces no output line, the cached token is cleared to empty and the
fetch timestamp is nevertheless updated to the current time. -/
theorem gcs_token_refresh_failure_amended (cred : List Char) (cache : TokenCache)
    (now : Nat)
    (hr : cache.last_access = 0 ∨
      (cache.last_access ≠ 0 ∧
        ((now : Int) - (cache.last_access : Int) > 3540))) :
    get_gcs_access_token ⟨none, none, some cred⟩ cache now none
      = some ⟨if cache.gcs_access_token.length > 0 then
                some cache.gcs_access_token else none,
              cache, true⟩
  ∧ get_gcs_access_token ⟨none, none, some cred⟩ cache now (some none)
      = some ⟨none, ⟨[], now⟩, true⟩ := by
  constructor
  · simp only [get_gcs_access_token, Option.isSome_none, Bool.false_eq_true,
      if_false, Option.isSome_some, if_true]
    rw [if_pos (by exact_mod_cast hr)]
    rfl
  · simp only [get_gcs_access_token, Option.isSome_none, Bool.false_eq_true,
      if_false, Option.isSome_some, if_true]
    rw [if_pos (by exact_mod_cast hr)]
    rfl

/-- Witness for the amended C2 at a concrete stale cache. -/
theorem gcs_token_refresh_failure_amended_witness :
    ((⟨chars "old", 100⟩ : TokenCache).last_access = 0 ∨
      ((⟨chars "old", 100⟩ : TokenCache).last_access ≠ 0 ∧
        (((9999 : Nat) : Int) - ((⟨chars "old", 100⟩ : TokenCache).last_access : Int)
          > 3540)))
  ∧ get_gcs_access_token ⟨none, none, some (chars "/c")⟩ ⟨chars "old", 100⟩
        9999 none
      = some ⟨if (chars "old").length > 0 then some (chars "old") else none,
              ⟨chars "old", 100⟩, true⟩
  ∧ get_gcs_access_token ⟨none, none, some (chars "/c")⟩ ⟨chars "old", 100⟩
        9999 (some none)
      = some ⟨none, ⟨[], 9999⟩, true⟩ :=
  ⟨Or.inr ⟨by decide, by decide⟩,
   (gcs_token_refresh_failure_amended (chars "/c") ⟨chars "old", 100⟩ 9999
      (Or.inr ⟨by decide, by decide⟩)).1,
   (gcs_token_refresh_failure_amended (chars "/c") ⟨chars "old", 100⟩ 9999
      (Or.inr ⟨by decide, by decide⟩)).2⟩

/-- Claim C4 counterexample: with the credential path configured, a call made
while the cache is EMPTY but a previous refresh attempt is recorded 100
seconds ago does not invoke the subprocess (the claim says an empty cache
always triggers an invocation): the result carries `invoked = false`, no
token, and the untouched cache, even though the subprocess stood ready to
deliver `"tok"`. -/
theorem gcs_token_staleness_cex :
    get_gcs_access_token ⟨none, none, some (chars "/c.json")⟩ ⟨[], 100⟩ 200
        (some (some (chars "tok")))
      = some ⟨none, ⟨[], 100⟩, false⟩ := by
  decide

/-- Claim C4 (amended): with the credential path configured (no override
token, no sentinel), a call made when the cache is non-empty and the recorded
fetch time is at most 3540 seconds old returns the cached token without
invoking the subprocess; a call made when NO FETCH TIME IS RECORDED
(`last_access = 0`) or the recorded fetch time is more than 3540 seconds old
invokes the subprocess exactly once and, on a successful in-bounds read,
stores the line and records the current time as the fetch time. -/
theorem gcs_token_staleness_amended (cred line : List Char) (cache : TokenCache)
    (now : Nat) (subproc : Option (Option (List Char))) :
    (cache.gcs_access_token ≠ [] → cache.last_access ≠ 0 →
      (now : Int) - (cache.last_access : Int) ≤ 3540 →
      get_gcs_access_token ⟨none, none, some cred⟩ cache now subproc
        = some ⟨some cache.gcs_access_token, cache, false⟩)
  ∧ ((cache.last_access = 0 ∨
        (now : Int) - (cache.last_access : Int) > 3540) →
      line.length ≤ 2048 →
      get_gcs_access_token ⟨none, none, some cred⟩ cache now (some (some line))
        = some ⟨if line.length > 0 then some line else none, ⟨line, now⟩, true⟩) := by
  constructor
  · intro hne hla hfresh
    have hcond : ¬ (cache.last_access = 0 ∨
        (cache.last_access ≠ 0 ∧
          ((now : Int) - (cache.last_access : Int)
            > (MAX_SERVICE_TOKEN_DURATION : Int)))) := by
      push_neg
      refine ⟨hla, fun _ => ?_⟩
      exact_mod_cast hfresh
    simp only [get_gcs_access_token, Option.isSome_none, Bool.false_eq_true,
      if_false, Option.isSome_some, if_true]
    rw [if_neg hcond]
    simp [List.length_pos.mpr hne]
  · intro hstale hlen
    have hcond : cache.last_access = 0 ∨
        (cache.last_access ≠ 0 ∧
          ((now : Int) - (cache.last_access : Int)
            > (MAX_SERVICE_TOKEN_DURATION : Int))) := by
      rcases hstale with h0 | hgt
      · exact Or.inl h0
      · by_cases h0 : cache.last_access = 0
        · exact Or.inl h0
        · exact Or.inr ⟨h0, by exact_mod_cast hgt⟩
    have hnottoolong : ¬ line.length > MAX_GCS_TOKEN_SIZE := by
      simp only [MAX_GCS_TOKEN_SIZE]
      omega
    simp only [get_gcs_access_token, Option.isSome_none, Bool.false_eq_true,
      if_false, Option.isSome_some, if_true]
    rw [if_pos hcond]
    simp only [hnottoolong, if_false]
    rw [List.take_of_length_le (by simpa [MAX_GCS_TOKEN_SIZE] using hlen)]
    rfl

/-- Witness for the amended C4: a fresh non-empty cache is served without
invocation; a stale cache triggers a refresh that stores the new line. -/
theorem gcs_token_staleness_amended_witness :
    ((chars "cached" ≠ []) ∧ ((100 : Nat) ≠ 0)
      ∧ (((200 : Nat) : Int) - ((100 : Nat) : Int) ≤ 3540)
      ∧ get_gcs_access_token ⟨none, none, some (chars "/c")⟩ ⟨chars "cached", 100⟩
            200 (some (some (chars "newtok")))
          = some ⟨some (chars "cached"), ⟨chars "cached", 100⟩, false⟩)
  ∧ (((chars "newtok").length ≤ 2048)
      ∧ get_gcs_access_token ⟨none, none, some (chars "/c")⟩ ⟨chars "cached", 100⟩
            99999 (some (some (chars "newtok")))
          = some ⟨if (chars "newtok").length > 0 then some (chars "newtok")
                    else none,
                  ⟨chars "newtok", 99999⟩, true⟩) :=
  ⟨⟨by decide, by decide, by decide,
    (gcs_token_staleness_amended (chars "/c") (chars "newtok")
        ⟨chars "cached", 100⟩ 200 (some (some (chars "newtok")))).1
      (by decide) (by decide) (by decide)⟩,
   ⟨by decide,
    (gcs_token_staleness_amended (chars "/c") (chars "newtok")
        ⟨chars "cached", 100⟩ 99999 (some (some (chars "newtok")))).2
      (Or.inr (by decide)) (by decide)⟩⟩

/-- Claim C7 counterexample: with none of the three configuration signals
present but a token left in the process-wide cache by an earlier call, the
provider returns the CACHED token, not "no token": line 91 consults the
static buffer unconditionally. -/
theorem gcs_token_no_config_cex :
    get_gcs_access_token ⟨none, none, none⟩ ⟨chars "staletok", 100⟩ 200 none
      = some ⟨some (chars "staletok"), ⟨chars "staletok", 100⟩, false⟩ := by
  decide

/-- Claim C7 (amended): when none of the three authentication signals is
present, no refresh is attempted and the provider returns the previously
cached token when one is stored; it returns "no token" exactly when the cache
is empty. -/
theorem gcs_token_no_config_amended (cache : TokenCache) (now : Nat)
    (subproc : Option (Option (List Char))) :
    get_gcs_access_token ⟨none, none, none⟩ cache now subproc
      = some ⟨if cache.gcs_access_token.length > 0 then
                some cache.gcs_access_token else none,
              cache, false⟩ := by
  simp [get_gcs_access_token]

/-- Claim C9 counterexample: for mode `"rw"` (both `'r'` and `'w'` present)
the rewritten host is the download-oriented one, not the direction-neutral
`bucket.storage.googleapis.com` the claim requires: line 120 tests `'r'`
first. -/
theorem gcs_mode_rw_cex :
    gcs_target_url (chars "gs://b/p") (chars "rw")
      = some (chars "https://b.storage-download.googleapis.com/p")
  ∧ gcs_target_url (chars "gs://b/p") (chars "rw")
      ≠ some (chars "https://b.storage.googleapis.com/p") := by
  constructor
  · decide
  · decide

/-- Claim C9 (amended): for every mode string containing both `'r'` and `'w'`,
the rewritten host is the DOWNLOAD-oriented `bucket.storage-download.<domain>`:
the `'r'` test comes first and wins. -/
theorem gcs_mode_rw_amended (bucket path mode : List Char)
    (hb : bucket ≠ [])
    (hbs : ∀ c ∈ bucket, c ≠ '/' ∧ c ≠ '?' ∧ c ≠ '#')
    (hp : path = [] ∨ ∃ c t, path = c :: t ∧ (c = '/' ∨ c = '?' ∨ c = '#'))
    (hr : mode.contains 'r' = true) (_hw : mode.contains 'w' = true) :
    gcs_target_url (chars "gs://" ++ bucket ++ path) mode
      = some (chars "https://" ++ bucket ++ chars ".storage-download"
          ++ chars ".googleapis.com" ++ path) := by
  obtain ⟨k1, k2, k3, k4⟩ := gcs_parse_rest bucket path hb hbs hp
  have hrm : 'r' ∈ mode := by simpa using hr
  show gcs_target_url ('g' :: 's' :: ':' :: '/' :: '/' :: (bucket ++ path)) mode = _
  simp [gcs_target_url, gcs_host_suffix, k1, k2, k3, k4, chars, hrm]

/-- Witness for the amended C9 at bucket `b`, path `/p`, mode `"rw"`. -/
theorem gcs_mode_rw_amended_witness :
    ((chars "b" ≠ []) ∧ ((chars "rw").contains 'r' = true)
      ∧ ((chars "rw").contains 'w' = true))
  ∧ gcs_target_url (chars "gs://" ++ chars "b" ++ chars "/p") (chars "rw")
      = some (chars "https://" ++ chars "b" ++ chars ".storage-download"
          ++ chars ".googleapis.com" ++ chars "/p") :=
  ⟨⟨by decide, by decide, by decide⟩,
   gcs_mode_rw_amended (chars "b") (chars "/p") (chars "rw")
     (by decide) (by decide)
     (Or.inr ⟨'/', chars "p", by decide, Or.inl rfl⟩)
     (by decide) (by decide)⟩

/-- Claim C1, evaluated at the failing input: with no access token available
and only `GCS_REQUESTER_PAYS_PROJECT` set (no variadic arguments, no mode
colon), the options-based path is taken — the condition on line 144 fires
because `requester_pays_hdr` is non-empty — yet the single-header branch on
lines 163–164 passes `NULL` instead of the header, so the opener receives an
EMPTY header list: the non-empty X-Goog-User-Project header is dropped. -/
theorem gcs_requester_pays_header_dropped :
    requester_pays_hdr (some (chars "proj-123")) ≠ []
  ∧ gcs_open_call none (some (chars "proj-123")) (chars "gs://b/o") (chars "r")
        false false
      = some (OpenCall.withOpts
          (chars "https://b.storage-download.googleapis.com/o")
          (chars "r:") false []) := by
  constructor
  · decide
  · decide

/-- Claim C10 counterexample: for `gs:///obj` the claim predicts a target
host beginning with `.storage` (empty bucket), but the slash-copying loop on
line 115 absorbs the third slash as well, so the produced URL is
`https:///obj.storage-download.googleapis.com` — `obj` becomes the bucket
segment and the result does not begin with `https://.storage`. -/
theorem gcs_translation_empty_bucket_cex :
    gcs_target_url (chars "gs:///obj") (chars "r")
      = some (chars "https:///obj.storage-download.googleapis.com")
  ∧ ¬ (chars "https://.storage").isPrefixOf
        (chars "https:///obj.storage-download.googleapis.com") := by
  constructor
  · decide
  · decide

/-- Claim C10 (amended): translation itself never fails.  For every input URL
beginning with one of the registered scheme prefixes (`gs://`, `gs+http://`,
`gs+https://`) and every mode string, token, project setting, colon flag and
argument flag, the translator performs no validation: it always constructs an
open call (the rewrite is `some`), always delegates it to the generic opener,
and returns exactly the opener's result — so a failure is returned if and
only if the opener fails.  (For `gs:///obj` the extra leading slash is
absorbed by the slash-copying loop, making `obj` the bucket segment; the
rewritten URL is `https:///obj.storage-download.googleapis.com`.) -/
theorem gcs_translation_total_amended {α : Type} (opener : OpenCall → α)
    (tok proj : Option (List Char)) (rest mode : List Char)
    (mode_has_colon has_args : Bool) :
    (∃ call,
        gcs_open_call tok proj (chars "gs://" ++ rest) mode mode_has_colon has_args
          = some call
      ∧ gcs_rewrite opener tok proj (chars "gs://" ++ rest) mode mode_has_colon has_args
          = some (opener call))
  ∧ (∃ call,
        gcs_open_call tok proj (chars "gs+http://" ++ rest) mode mode_has_colon has_args
          = some call
      ∧ gcs_rewrite opener tok proj (chars "gs+http://" ++ rest) mode mode_has_colon has_args
          = some (opener call))
  ∧ (∃ call,
        gcs_open_call tok proj (chars "gs+https://" ++ rest) mode mode_has_colon has_args
          = some call
      ∧ gcs_rewrite opener tok proj (chars "gs+https://" ++ rest) mode mode_has_colon has_args
          = some (opener call)) :=
  ⟨⟨_, rfl, rfl⟩, ⟨_, rfl, rfl⟩, ⟨_, rfl, rfl⟩⟩
